import Mathlib

/-!
Shallow embedding of `src/application/services/js-services/index.ts`
(class `AFClientService`): the load-state-aware retrieval cache, the
publish-info cache with its invalidation hooks, and the precondition
checks of `getPageDoc` / `registerDocUpdate`.

External collaborators (the cache storage functions imported from
`cache/`, the `fetch*` network functions, `APIService`, `SyncManager`)
are modelled as oracle inputs: each call receives the behaviour the
collaborator would exhibit (`CollabBehavior`, `FetchOutcome`,
`hasViewMetaCache` / `hasRecord` booleans) and the embedding computes
the method's result, the service state afterwards, and the observable
requests it issued (which strategy was passed, whether the network was
consulted, whether a cached record deletion was issued).  The
fire-and-forget invalidation task inside the fetch closures is folded
into the returned state: the returned state is the state once that
cleanup has run.
-/

set_option maxHeartbeats 1000000

namespace AppFlowyWeb

/-- Retrieval strategies passed to the external cache collaborator
(`StrategyType` from `cache/types`). -/
inductive StrategyType
  | CACHE_FIRST
  | CACHE_AND_NETWORK
deriving DecidableEq, Repr

/-- Result of an async method: the promise either resolves with a value
or rejects with an error message. -/
inductive CallResult (α : Type)
  | ok (value : α)
  | err (e : String)
deriving DecidableEq, Repr

/-- Outcome of a network-fetch closure (`fetchPublishViewMeta`,
`fetchPublishView`, `fetchPageCollab`, `fetchViewInfo`, ...) when it is
invoked. -/
inductive FetchOutcome (α : Type)
  | resolves (value : α)
  | rejects (e : String)
deriving DecidableEq, Repr

/-- Behaviour of the external cache-storage collaborator for one call:
either it resolves without ever invoking the network-fetch closure
(e.g. a CACHE_FIRST hit), or it invokes the closure and, per its
contract, resolves with the fetched value or propagates the closure's
rejection. -/
inductive CollabBehavior (α : Type)
  | resolveFromCache (value : α)
  | invokeFetch
deriving DecidableEq, Repr

/-- Opaque published-view metadata object. -/
structure ViewMeta where
  metaId : String
deriving DecidableEq, Repr

/-- Opaque Y.Doc value. -/
structure Doc where
  docId : String
deriving DecidableEq, Repr

/-- Opaque user profile object. -/
structure AppUser where
  uid : String
deriving DecidableEq, Repr

/-- Record cached in `publishViewInfo` (the object built in
`getPublishInfo`). -/
structure PublishInfoRecord where
  «namespace» : String
  publishName : String
  publisherEmail : String
  viewId : String
  publishedAt : String
  commentEnabled : Bool
  duplicateEnabled : Bool
deriving DecidableEq, Repr

/-- Response of `fetchViewInfo` (snake_case wire fields).  A JS string
is falsy exactly when it is empty, so the `!namespace` test in the
source is the `== ""` test here. -/
structure ViewInfo where
  «namespace» : String
  publish_name : String
  publisher_email : String
  view_id : String
  publish_timestamp : String
  comments_enabled : Bool
  duplicate_enabled : Bool
deriving DecidableEq, Repr

/-- Mutable instance state of `AFClientService`: the two loaded-key
registries (JS `Set<string>`) and the publish-info cache
(JS `Map<string, ...>`), modelled as insertion-ordered lists. -/
structure AFClientService where
  viewLoaded : List String
  publishViewLoaded : List String
  publishViewInfo : List (String × PublishInfoRecord)
deriving DecidableEq, Repr

/-- Fresh service instance: all registries empty. -/
def emptyService : AFClientService := ⟨[], [], []⟩

/-- JS `Set.has`. -/
def setHas (s : List String) (k : String) : Bool :=
  s.any (fun x => x == k)

/-- JS `Set.add` (no-op when the element is already present). -/
def setAdd (s : List String) (k : String) : List String :=
  if setHas s k then s else s ++ [k]

/-- JS `Set.delete`. -/
def setDelete (s : List String) (k : String) : List String :=
  s.filter (fun x => x != k)

/-- JS `Map.has`. -/
def mapHas (m : List (String × PublishInfoRecord)) (k : String) : Bool :=
  m.any (fun p => p.1 == k)

/-- JS `Map.get`. -/
def mapGet (m : List (String × PublishInfoRecord)) (k : String) : Option PublishInfoRecord :=
  (m.find? (fun p => p.1 == k)).map (fun p => p.2)

/-- JS `Map.delete`. -/
def mapDelete (m : List (String × PublishInfoRecord)) (k : String) :
    List (String × PublishInfoRecord) :=
  m.filter (fun p => p.1 != k)

/-- JS `Map.set` (replaces in place, else appends). -/
def mapSet (m : List (String × PublishInfoRecord)) (k : String) (v : PublishInfoRecord) :
    List (String × PublishInfoRecord) :=
  if mapHas m k then m.map (fun p => if p.1 == k then (k, v) else p) else m ++ [(k, v)]

/-- Key built in `getPublishViewMeta` / `getPublishView`
(line 122 / 144): the template string `${namespace}_${publishName}`. -/
def publishViewKey (ns publishName : String) : String :=
  ns ++ "_" ++ publishName

/-- Key built in `getPageDoc` (line 485): the template string
`${userId}_${workspaceId}_${viewId}`. -/
def pageDocKey (userId workspaceId viewId : String) : String :=
  userId ++ "_" ++ workspaceId ++ "_" ++ viewId

/-- Observable outcome of one `getPublishViewMeta` call: the promise
result, the service state afterwards, and the strategy that was passed
to the cache collaborator. -/
structure MetaCall where
  result : CallResult ViewMeta
  state : AFClientService
  strategy : StrategyType
deriving DecidableEq, Repr

/-- Method `getPublishViewMeta` (lines 121-141).  The cache collaborator
may resolve with `none` (no meta available), in which case the `!viewMeta`
check rejects with "View has not been published yet".  Note the method
never touches `publishViewLoaded`, and its fetch closure has no catch
block, so no invalidation can run here. -/
def getPublishViewMeta (s : AFClientService) (ns publishName : String)
    (collab : CollabBehavior (Option ViewMeta)) (fetch : FetchOutcome (Option ViewMeta)) :
    MetaCall :=
  let name := publishViewKey ns publishName
  let isLoaded := setHas s.publishViewLoaded name
  let strategy := if isLoaded then StrategyType.CACHE_FIRST else StrategyType.CACHE_AND_NETWORK
  let resolved : FetchOutcome (Option ViewMeta) :=
    match collab with
    | .resolveFromCache v => .resolves v
    | .invokeFetch => fetch
  match resolved with
  | .rejects e => { result := .err e, state := s, strategy }
  | .resolves none =>
      { result := .err "View has not been published yet", state := s, strategy }
  | .resolves (some m) => { result := .ok m, state := s, strategy }

/-- Observable outcome of one `getPublishView` call.  `deletedView`
records whether the invalidation path issued `deleteView(name)`. -/
structure ViewCall where
  result : CallResult Doc
  state : AFClientService
  strategy : StrategyType
  deletedView : Bool
deriving DecidableEq, Repr

/-- Method `getPublishView` (lines 143-176).  `hasViewMetaCache` is the
answer of the external `hasViewMetaCache(name)` check consulted by the
fetch closure's catch block; only when it is true does the invalidation
path delete the key from `publishViewLoaded` and issue `deleteView`.
On resolution the key is added when it was not loaded before. -/
def getPublishView (s : AFClientService) (ns publishName : String)
    (collab : CollabBehavior Doc) (fetch : FetchOutcome Doc)
    (hasViewMetaCache : Bool) : ViewCall :=
  let name := publishViewKey ns publishName
  let isLoaded := setHas s.publishViewLoaded name
  let strategy := if isLoaded then StrategyType.CACHE_FIRST else StrategyType.CACHE_AND_NETWORK
  match collab with
  | .resolveFromCache v =>
      { result := .ok v
        state :=
          if isLoaded then s
          else { s with publishViewLoaded := setAdd s.publishViewLoaded name }
        strategy
        deletedView := false }
  | .invokeFetch =>
      match fetch with
      | .resolves v =>
          { result := .ok v
            state :=
              if isLoaded then s
              else { s with publishViewLoaded := setAdd s.publishViewLoaded name }
            strategy
            deletedView := false }
      | .rejects e =>
          { result := .err e
            state :=
              if hasViewMetaCache then
                { s with publishViewLoaded := setDelete s.publishViewLoaded name }
              else s
            strategy
            deletedView := hasViewMetaCache }

/-- Observable outcome of one `getPageDoc` call.  `strategy = none`
means the cache collaborator was never consulted (precondition
failure). -/
structure PageCall where
  result : CallResult Doc
  state : AFClientService
  strategy : Option StrategyType
  fetchInvoked : Bool
  deletedView : Bool
deriving DecidableEq, Repr

/-- Method `getPageDoc` (lines 474-515).  `userId` is `token?.user.id`;
when it is absent the method throws "User not found" before touching any
state.  `hasRecord` is whether the local persistent cache holds a record
for the key; the source's catch block never consults it: on a fetch
rejection it deletes the key from `viewLoaded` and issues
`deleteView(name)` unconditionally. -/
def getPageDoc (s : AFClientService) (userId : Option String)
    (workspaceId viewId : String) (collab : CollabBehavior Doc)
    (fetch : FetchOutcome Doc) (hasRecord : Bool) : PageCall :=
  match userId with
  | none =>
      { result := .err "User not found", state := s, strategy := none
        fetchInvoked := false, deletedView := false }
  | some uid =>
      let name := pageDocKey uid workspaceId viewId
      let isLoaded := setHas s.viewLoaded name
      let strategy := if isLoaded then StrategyType.CACHE_FIRST else StrategyType.CACHE_AND_NETWORK
      match collab with
      | .resolveFromCache v =>
          { result := .ok v
            state :=
              if isLoaded then s
              else { s with viewLoaded := setAdd s.viewLoaded name }
            strategy := some strategy
            fetchInvoked := false
            deletedView := false }
      | .invokeFetch =>
          match fetch with
          | .resolves v =>
              { result := .ok v
                state :=
                  if isLoaded then s
                  else { s with viewLoaded := setAdd s.viewLoaded name }
                strategy := some strategy
                fetchInvoked := true
                deletedView := false }
          | .rejects e =>
              { result := .err e
                state := { s with viewLoaded := setDelete s.viewLoaded name }
                strategy := some strategy
                fetchInvoked := true
                deletedView := true }

/-- Observable outcome of one `getPublishInfo` call. -/
structure InfoCall where
  result : CallResult PublishInfoRecord
  state : AFClientService
  networkCalled : Bool
deriving DecidableEq, Repr

/-- Shaping of a `fetchViewInfo` response into the record stored in
`publishViewInfo` (lines 237-245). -/
def shapeViewInfo (info : ViewInfo) : PublishInfoRecord :=
  { «namespace» := info.«namespace»
    publishName := info.publish_name
    publisherEmail := info.publisher_email
    viewId := info.view_id
    publishedAt := info.publish_timestamp
    commentEnabled := info.comments_enabled
    duplicateEnabled := info.duplicate_enabled }

/-- Method `getPublishInfo` (lines 216-250).  The source's
`has`-then-`get` pair is rendered as one match on `mapGet` (they agree:
`mapHas` is true exactly when `mapGet` is `some`).  `fetched` is the
outcome of `fetchViewInfo(viewId)` were it to be invoked. -/
def getPublishInfo (s : AFClientService) (viewId : String)
    (fetched : FetchOutcome ViewInfo) : InfoCall :=
  match mapGet s.publishViewInfo viewId with
  | some r => { result := .ok r, state := s, networkCalled := false }
  | none =>
      match fetched with
      | .rejects e => { result := .err e, state := s, networkCalled := true }
      | .resolves info =>
          if info.«namespace» == "" then
            { result := .err "View not found", state := s, networkCalled := true }
          else
            { result := .ok (shapeViewInfo info)
              state := { s with
                publishViewInfo := mapSet s.publishViewInfo viewId (shapeViewInfo info) }
              networkCalled := true }

/-- Method `publishView` (lines 84-90), state effect: the guarded
`publishViewInfo.delete(viewId)` performed before delegating to
`APIService.publishView`.  The returned state is the state in effect
when the network mutation is dispatched, and also the final state (the
network result never mutates the service). -/
def publishView (s : AFClientService) (workspaceId viewId : String) : AFClientService :=
  if mapHas s.publishViewInfo viewId then
    { s with publishViewInfo := mapDelete s.publishViewInfo viewId }
  else s

/-- Method `unpublishView` (lines 92-98), state effect (same guarded
delete before delegating). -/
def unpublishView (s : AFClientService) (workspaceId viewId : String) : AFClientService :=
  if mapHas s.publishViewInfo viewId then
    { s with publishViewInfo := mapDelete s.publishViewInfo viewId }
  else s

/-- Method `updatePublishNamespace` (lines 100-103), state effect:
`publishViewInfo.clear()` before delegating. -/
def updatePublishNamespace (s : AFClientService) (workspaceId : String) : AFClientService :=
  { s with publishViewInfo := [] }

/-- Method `updatePublishHomepage` (lines 113-115): pure delegation, no
state change. -/
def updatePublishHomepage (s : AFClientService) (workspaceId viewId : String) :
    AFClientService :=
  s

/-- Method `removePublishHomepage` (lines 117-119): pure delegation, no
state change. -/
def removePublishHomepage (s : AFClientService) (workspaceId : String) : AFClientService :=
  s

/-- Method `updatePublishConfig` (lines 252-255), state effect: the
unguarded `publishViewInfo.delete(config.view_id)` before delegating. -/
def updatePublishConfig (s : AFClientService) (workspaceId view_id : String) :
    AFClientService :=
  { s with publishViewInfo := mapDelete s.publishViewInfo view_id }

/-- Method `publishView` with the network outcome made explicit: the
state change happens before the delegation, and the call's result is
whatever `APIService.publishView` returns — resolved or rejected, the
mutated state stands. -/
def publishViewRun (s : AFClientService) (workspaceId viewId : String)
    (net : CallResult Unit) : CallResult Unit × AFClientService :=
  (net, publishView s workspaceId viewId)

/-- Method `unpublishView` with the network outcome made explicit. -/
def unpublishViewRun (s : AFClientService) (workspaceId viewId : String)
    (net : CallResult Unit) : CallResult Unit × AFClientService :=
  (net, unpublishView s workspaceId viewId)

/-- Method `updatePublishConfig` with the network outcome made
explicit. -/
def updatePublishConfigRun (s : AFClientService) (workspaceId view_id : String)
    (net : CallResult Unit) : CallResult Unit × AFClientService :=
  (net, updatePublishConfig s workspaceId view_id)

/-- Observable outcome of one `getCurrentUser` call. -/
structure UserCall where
  result : CallResult AppUser
  strategy : StrategyType
deriving DecidableEq, Repr

/-- Method `getCurrentUser` (lines 340-355): always requests
CACHE_AND_NETWORK; a resolved-but-absent user rejects with
"User not found". -/
def getCurrentUser (resolved : FetchOutcome (Option AppUser)) : UserCall :=
  match resolved with
  | .rejects e => { result := .err e, strategy := StrategyType.CACHE_AND_NETWORK }
  | .resolves none =>
      { result := .err "User not found", strategy := StrategyType.CACHE_AND_NETWORK }
  | .resolves (some u) => { result := .ok u, strategy := StrategyType.CACHE_AND_NETWORK }

/-- Method `getPublishRowDocument` (lines 178-187): `hasCollabCache` is
the external check on the opened doc; when it fails the call rejects
with "Document not found". -/
def getPublishRowDocument (doc : Doc) (hasCollabCache : Bool) : CallResult Doc :=
  if hasCollabCache then .ok doc else .err "Document not found"

/-- Observable outcome of one `registerDocUpdate` call:
`syncConstructed` records whether a `SyncManager` was built and
started. -/
structure RegisterCall where
  result : CallResult Unit
  syncConstructed : Bool
deriving DecidableEq, Repr

/-- Method `registerDocUpdate` (lines 557-570): with no resolvable user
id it throws "User not found" before constructing the sync binding. -/
def registerDocUpdate (userId : Option String) : RegisterCall :=
  match userId with
  | none => { result := .err "User not found", syncConstructed := false }
  | some _ => { result := .ok (), syncConstructed := true }

/-- Sample metadata value used in concrete evaluations. -/
def metaExample : ViewMeta := ⟨"m1"⟩

/-- Sample document value used in concrete evaluations. -/
def docExample : Doc := ⟨"d1"⟩

/-- Sample user value used in concrete evaluations. -/
def userExample : AppUser := ⟨"u1"⟩

/-- Sample cached publish-info record. -/
def recExample : PublishInfoRecord :=
  ⟨"ns1", "note", "p@x", "v42", "2024-01-01", true, false⟩

/-- Sample `fetchViewInfo` response, deliberately different from
`recExample` so a cached read is distinguishable from a fresh fetch. -/
def infoExample : ViewInfo :=
  ⟨"ns2", "note2", "q@x", "v42", "2024-02-02", false, true⟩

/-- Service whose publish-info cache holds a record for "v42". -/
def cachedService : AFClientService := ⟨[], [], [("v42", recExample)]⟩

/-- Service whose page registry holds the key for ("u1","w1","v1"). -/
def loadedPageService : AFClientService := ⟨[pageDocKey "u1" "w1" "v1"], [], []⟩

/-- Service whose publish registry holds the key for ("ns1","note"). -/
def loadedPublishService : AFClientService := ⟨[], [publishViewKey "ns1" "note"], []⟩

/-! Helper lemmas about the JS collection models. -/

theorem setHas_iff (l : List String) (k : String) : setHas l k = true ↔ k ∈ l := by
  simp [setHas]

theorem setHas_setAdd_self (l : List String) (k : String) :
    setHas (setAdd l k) k = true := by
  rw [setHas_iff, setAdd]
  by_cases hb : setHas l k = true
  · rw [if_pos hb]
    exact (setHas_iff l k).1 hb
  · rw [if_neg hb]
    simp

theorem setHas_setAdd_of (l : List String) (k k2 : String)
    (h : setHas l k = true) : setHas (setAdd l k2) k = true := by
  rw [setHas_iff] at h
  rw [setHas_iff, setAdd]
  by_cases hb : setHas l k2 = true
  · rw [if_pos hb]; exact h
  · rw [if_neg hb]
    simp [h]

theorem setHas_setDelete_self (l : List String) (k : String) :
    setHas (setDelete l k) k = false := by
  simp only [setHas, setDelete, List.any_eq_false, List.mem_filter, bne_iff_ne, ne_eq,
    beq_iff_eq, and_imp]
  intro x _ hx
  exact hx

theorem setHas_setDelete_of (l : List String) (k k2 : String)
    (hne : k ≠ k2) (h : setHas l k = true) : setHas (setDelete l k2) k = true := by
  rw [setHas_iff] at h
  rw [setHas_iff, setDelete, List.mem_filter]
  exact ⟨h, by simpa [bne_iff_ne] using hne⟩

theorem mapHas_mapDelete_self (m : List (String × PublishInfoRecord)) (k : String) :
    mapHas (mapDelete m k) k = false := by
  simp only [mapHas, mapDelete, List.any_eq_false, List.mem_filter, bne_iff_ne, ne_eq,
    beq_iff_eq, and_imp]
  intro p _ hp
  exact hp

theorem find?_eq_none_of (m : List (String × PublishInfoRecord)) (k : String)
    (h : mapHas m k = false) : m.find? (fun p => p.1 == k) = none := by
  rw [List.find?_eq_none]
  intro p hp
  simp only [mapHas, List.any_eq_false, beq_iff_eq] at h
  simpa using h p hp

theorem mapGet_eq_none_of (m : List (String × PublishInfoRecord)) (k : String)
    (h : mapHas m k = false) : mapGet m k = none := by
  rw [mapGet, find?_eq_none_of m k h]
  rfl

theorem mapDelete_eq_self_of (m : List (String × PublishInfoRecord)) (k : String)
    (h : mapHas m k = false) : mapDelete m k = m := by
  rw [mapDelete, List.filter_eq_self]
  intro p hp
  simp only [mapHas, List.any_eq_false, beq_iff_eq] at h
  simpa [bne_iff_ne] using h p hp

theorem find?_mapReplace (m : List (String × PublishInfoRecord)) (k : String)
    (v : PublishInfoRecord) (h : mapHas m k = true) :
    (m.map (fun p => if p.1 == k then (k, v) else p)).find? (fun p => p.1 == k) =
      some (k, v) := by
  induction m with
  | nil => simp [mapHas] at h
  | cons p t ih =>
      by_cases hp : p.1 = k
      · simp [List.find?_cons, hp]
      · simp only [mapHas, List.any_cons, Bool.or_eq_true, beq_iff_eq] at h
        rcases h with h | h
        · exact absurd h hp
        · have ht : mapHas t k = true := by simpa [mapHas] using h
          have hb : (p.1 == k) = false := by simp [hp]
          simp only [List.map_cons]
          rw [if_neg (by simp [hp]), List.find?_cons, hb]
          exact ih ht

theorem mapGet_mapSet_self (m : List (String × PublishInfoRecord)) (k : String)
    (v : PublishInfoRecord) : mapGet (mapSet m k v) k = some v := by
  rw [mapSet]
  by_cases h : mapHas m k = true
  · rw [if_pos h, mapGet, find?_mapReplace m k v h]
    rfl
  · have hmf : mapHas m k = false := by
      cases hb : mapHas m k
      · rfl
      · exact absurd hb h
    rw [if_neg h, mapGet, List.find?_append, find?_eq_none_of m k hmf]
    simp [List.find?_cons]

/-! Helper lemmas about the retrieval operations. -/

theorem getPublishViewMeta_strategy (s : AFClientService) (ns pn : String)
    (cm : CollabBehavior (Option ViewMeta)) (fm : FetchOutcome (Option ViewMeta)) :
    (getPublishViewMeta s ns pn cm fm).strategy =
      if setHas s.publishViewLoaded (publishViewKey ns pn) then StrategyType.CACHE_FIRST
      else StrategyType.CACHE_AND_NETWORK := by
  cases cm with
  | resolveFromCache v => cases v <;> rfl
  | invokeFetch =>
      cases fm with
      | resolves v => cases v <;> rfl
      | rejects e => rfl

theorem getPublishView_strategy (s : AFClientService) (ns pn : String)
    (cv : CollabBehavior Doc) (fv : FetchOutcome Doc) (hmc : Bool) :
    (getPublishView s ns pn cv fv hmc).strategy =
      if setHas s.publishViewLoaded (publishViewKey ns pn) then StrategyType.CACHE_FIRST
      else StrategyType.CACHE_AND_NETWORK := by
  cases cv with
  | resolveFromCache v => rfl
  | invokeFetch => cases fv <;> rfl

theorem getPageDoc_strategy (s : AFClientService) (uid wk vid : String)
    (cp : CollabBehavior Doc) (fp : FetchOutcome Doc) (hr : Bool) :
    (getPageDoc s (some uid) wk vid cp fp hr).strategy =
      some (if setHas s.viewLoaded (pageDocKey uid wk vid) then StrategyType.CACHE_FIRST
        else StrategyType.CACHE_AND_NETWORK) := by
  cases cp with
  | resolveFromCache v => rfl
  | invokeFetch => cases fp <;> rfl

theorem getPublishView_state_cases (s : AFClientService) (ns pn : String)
    (cv : CollabBehavior Doc) (fv : FetchOutcome Doc) (hmc : Bool) :
    (getPublishView s ns pn cv fv hmc).state = s ∨
    (getPublishView s ns pn cv fv hmc).state =
      { s with publishViewLoaded := setAdd s.publishViewLoaded (publishViewKey ns pn) } ∨
    (getPublishView s ns pn cv fv hmc).state =
      { s with publishViewLoaded := setDelete s.publishViewLoaded (publishViewKey ns pn) } := by
  cases cv with
  | resolveFromCache v =>
      by_cases hl : setHas s.publishViewLoaded (publishViewKey ns pn) = true
      · exact Or.inl (by simp [getPublishView, hl])
      · exact Or.inr (Or.inl (by simp [getPublishView, hl]))
  | invokeFetch =>
      cases fv with
      | resolves v =>
          by_cases hl : setHas s.publishViewLoaded (publishViewKey ns pn) = true
          · exact Or.inl (by simp [getPublishView, hl])
          · exact Or.inr (Or.inl (by simp [getPublishView, hl]))
      | rejects e =>
          cases hmc with
          | true => exact Or.inr (Or.inr (by simp [getPublishView]))
          | false => exact Or.inl (by simp [getPublishView])

theorem getPageDoc_state_cases (s : AFClientService) (uid wk vid : String)
    (cp : CollabBehavior Doc) (fp : FetchOutcome Doc) (hr : Bool) :
    (getPageDoc s (some uid) wk vid cp fp hr).state = s ∨
    (getPageDoc s (some uid) wk vid cp fp hr).state =
      { s with viewLoaded := setAdd s.viewLoaded (pageDocKey uid wk vid) } ∨
    (getPageDoc s (some uid) wk vid cp fp hr).state =
      { s with viewLoaded := setDelete s.viewLoaded (pageDocKey uid wk vid) } := by
  cases cp with
  | resolveFromCache v =>
      by_cases hl : setHas s.viewLoaded (pageDocKey uid wk vid) = true
      · exact Or.inl (by simp [getPageDoc, hl])
      · exact Or.inr (Or.inl (by simp [getPageDoc, hl]))
  | invokeFetch =>
      cases fp with
      | resolves v =>
          by_cases hl : setHas s.viewLoaded (pageDocKey uid wk vid) = true
          · exact Or.inl (by simp [getPageDoc, hl])
          · exact Or.inr (Or.inl (by simp [getPageDoc, hl]))
      | rejects e => exact Or.inr (Or.inr (by simp [getPageDoc]))

theorem getPublishView_ok_state (s : AFClientService) (ns pn : String)
    (cv : CollabBehavior Doc) (fv : FetchOutcome Doc) (hmc : Bool) (d : Doc)
    (h : (getPublishView s ns pn cv fv hmc).result = CallResult.ok d) :
    (getPublishView s ns pn cv fv hmc).state =
      if setHas s.publishViewLoaded (publishViewKey ns pn) then s
      else { s with publishViewLoaded := setAdd s.publishViewLoaded (publishViewKey ns pn) } := by
  cases cv with
  | resolveFromCache v => rfl
  | invokeFetch =>
      cases fv with
      | resolves v => rfl
      | rejects e => simp [getPublishView] at h

theorem getPageDoc_ok_state (s : AFClientService) (uid wk vid : String)
    (cp : CollabBehavior Doc) (fp : FetchOutcome Doc) (hr : Bool) (d : Doc)
    (h : (getPageDoc s (some uid) wk vid cp fp hr).result = CallResult.ok d) :
    (getPageDoc s (some uid) wk vid cp fp hr).state =
      if setHas s.viewLoaded (pageDocKey uid wk vid) then s
      else { s with viewLoaded := setAdd s.viewLoaded (pageDocKey uid wk vid) } := by
  cases cp with
  | resolveFromCache v => rfl
  | invokeFetch =>
      cases fp with
      | resolves v => rfl
      | rejects e => simp [getPageDoc] at h

theorem getPublishViewMeta_state (s : AFClientService) (ns pn : String)
    (cm : CollabBehavior (Option ViewMeta)) (fm : FetchOutcome (Option ViewMeta)) :
    (getPublishViewMeta s ns pn cm fm).state = s := by
  cases cm with
  | resolveFromCache v => cases v <;> rfl
  | invokeFetch =>
      cases fm with
      | resolves v => cases v <;> rfl
      | rejects e => rfl

/-! Claim theorems. -/

/-- Claim C1: for every retrieval operation (`getPublishViewMeta`,
`getPublishView`, `getPageDoc`) and every key, a key absent from the
corresponding loaded-key registry (`publishViewLoaded` / `viewLoaded`)
makes the call request CACHE_AND_NETWORK from the cache collaborator,
and a present key makes it request CACHE_FIRST. -/
theorem C1_strategy_selection (s : AFClientService) (ns pn uid wk vid : String)
    (cm : CollabBehavior (Option ViewMeta)) (fm : FetchOutcome (Option ViewMeta))
    (cv : CollabBehavior Doc) (fv : FetchOutcome Doc) (hmc : Bool)
    (cp : CollabBehavior Doc) (fp : FetchOutcome Doc) (hr : Bool) :
    (setHas s.publishViewLoaded (publishViewKey ns pn) = false →
      (getPublishViewMeta s ns pn cm fm).strategy = StrategyType.CACHE_AND_NETWORK ∧
      (getPublishView s ns pn cv fv hmc).strategy = StrategyType.CACHE_AND_NETWORK) ∧
    (setHas s.publishViewLoaded (publishViewKey ns pn) = true →
      (getPublishViewMeta s ns pn cm fm).strategy = StrategyType.CACHE_FIRST ∧
      (getPublishView s ns pn cv fv hmc).strategy = StrategyType.CACHE_FIRST) ∧
    (setHas s.viewLoaded (pageDocKey uid wk vid) = false →
      (getPageDoc s (some uid) wk vid cp fp hr).strategy = some StrategyType.CACHE_AND_NETWORK) ∧
    (setHas s.viewLoaded (pageDocKey uid wk vid) = true →
      (getPageDoc s (some uid) wk vid cp fp hr).strategy = some StrategyType.CACHE_FIRST) := by
  refine ⟨fun h => ⟨?_, ?_⟩, fun h => ⟨?_, ?_⟩, fun h => ?_, fun h => ?_⟩ <;>
    simp [getPublishViewMeta_strategy, getPublishView_strategy, getPageDoc_strategy, h]

/-- Witness for C1 at concrete inputs: a fresh service requests
CACHE_AND_NETWORK, a service with the key registered requests
CACHE_FIRST. -/
theorem C1_strategy_selection_witness :
    (getPublishViewMeta emptyService "ns1" "note" CollabBehavior.invokeFetch
        (FetchOutcome.rejects "boom")).strategy = StrategyType.CACHE_AND_NETWORK ∧
    (getPublishView emptyService "ns1" "note" CollabBehavior.invokeFetch
        (FetchOutcome.rejects "boom") false).strategy = StrategyType.CACHE_AND_NETWORK :=
  (C1_strategy_selection emptyService "ns1" "note" "u1" "w1" "v1"
      CollabBehavior.invokeFetch (FetchOutcome.rejects "boom")
      CollabBehavior.invokeFetch (FetchOutcome.rejects "boom") false
      CollabBehavior.invokeFetch (FetchOutcome.rejects "boom") false).1 rfl

/-- Claim C2 is false as stated: `getPublishViewMeta` is a retrieval
operation of the orchestrator, it resolves successfully here, and yet
its key is never added to the `publishViewLoaded` registry. -/
theorem C2_counterexample :
    (getPublishViewMeta emptyService "ns1" "note"
        (CollabBehavior.resolveFromCache (some metaExample))
        (FetchOutcome.resolves (some metaExample))).result = CallResult.ok metaExample ∧
    setHas (getPublishViewMeta emptyService "ns1" "note"
        (CollabBehavior.resolveFromCache (some metaExample))
        (FetchOutcome.resolves (some metaExample))).state.publishViewLoaded
      (publishViewKey "ns1" "note") = false :=
  ⟨rfl, rfl⟩

/-- Claim C2 (amended): after `getPublishView` or `getPageDoc` resolves
successfully, the call's key is present in its registry (added when it
was absent); a successful call never removes any registered key, and a
call removes at most its own key (so every other key stays registered
until an invalidation for it); `getPublishViewMeta`, however, never
modifies the service state, so a successful `getPublishViewMeta` does
not register its key. -/
theorem C2_registry_registration (s : AFClientService) (ns pn uid wk vid : String)
    (cv : CollabBehavior Doc) (fv : FetchOutcome Doc) (hmc : Bool)
    (cp : CollabBehavior Doc) (fp : FetchOutcome Doc) (hr : Bool)
    (cm : CollabBehavior (Option ViewMeta)) (fm : FetchOutcome (Option ViewMeta)) :
    (∀ d, (getPublishView s ns pn cv fv hmc).result = CallResult.ok d →
      setHas (getPublishView s ns pn cv fv hmc).state.publishViewLoaded
        (publishViewKey ns pn) = true) ∧
    (∀ d, (getPageDoc s (some uid) wk vid cp fp hr).result = CallResult.ok d →
      setHas (getPageDoc s (some uid) wk vid cp fp hr).state.viewLoaded
        (pageDocKey uid wk vid) = true) ∧
    (∀ k d, setHas s.publishViewLoaded k = true →
      (getPublishView s ns pn cv fv hmc).result = CallResult.ok d →
      setHas (getPublishView s ns pn cv fv hmc).state.publishViewLoaded k = true) ∧
    (∀ k d, setHas s.viewLoaded k = true →
      (getPageDoc s (some uid) wk vid cp fp hr).result = CallResult.ok d →
      setHas (getPageDoc s (some uid) wk vid cp fp hr).state.viewLoaded k = true) ∧
    (∀ k, setHas s.publishViewLoaded k = true → k ≠ publishViewKey ns pn →
      setHas (getPublishView s ns pn cv fv hmc).state.publishViewLoaded k = true) ∧
    (∀ k, setHas s.viewLoaded k = true → k ≠ pageDocKey uid wk vid →
      setHas (getPageDoc s (some uid) wk vid cp fp hr).state.viewLoaded k = true) ∧
    (getPublishViewMeta s ns pn cm fm).state = s := by
  refine ⟨?_, ?_, ?_, ?_, ?_, ?_, getPublishViewMeta_state s ns pn cm fm⟩
  · intro d h
    rw [getPublishView_ok_state s ns pn cv fv hmc d h]
    by_cases hl : setHas s.publishViewLoaded (publishViewKey ns pn) = true
    · rw [if_pos hl]; exact hl
    · rw [if_neg hl]; exact setHas_setAdd_self _ _
  · intro d h
    rw [getPageDoc_ok_state s uid wk vid cp fp hr d h]
    by_cases hl : setHas s.viewLoaded (pageDocKey uid wk vid) = true
    · rw [if_pos hl]; exact hl
    · rw [if_neg hl]; exact setHas_setAdd_self _ _
  · intro k d hk h
    rw [getPublishView_ok_state s ns pn cv fv hmc d h]
    by_cases hl : setHas s.publishViewLoaded (publishViewKey ns pn) = true
    · rw [if_pos hl]; exact hk
    · rw [if_neg hl]; exact setHas_setAdd_of _ _ _ hk
  · intro k d hk h
    rw [getPageDoc_ok_state s uid wk vid cp fp hr d h]
    by_cases hl : setHas s.viewLoaded (pageDocKey uid wk vid) = true
    · rw [if_pos hl]; exact hk
    · rw [if_neg hl]; exact setHas_setAdd_of _ _ _ hk
  · intro k hk hne
    rcases getPublishView_state_cases s ns pn cv fv hmc with h | h | h
    · rw [h]; exact hk
    · rw [h]; exact setHas_setAdd_of _ _ _ hk
    · rw [h]; exact setHas_setDelete_of _ _ _ hne hk
  · intro k hk hne
    rcases getPageDoc_state_cases s uid wk vid cp fp hr with h | h | h
    · rw [h]; exact hk
    · rw [h]; exact setHas_setAdd_of _ _ _ hk
    · rw [h]; exact setHas_setDelete_of _ _ _ hne hk

/-- Witness for C2 (amended) at concrete inputs: a successful
`getPublishView` on a fresh service registers its key. -/
theorem C2_registry_registration_witness :
    setHas (getPublishView emptyService "ns1" "note"
        (CollabBehavior.resolveFromCache docExample)
        (FetchOutcome.resolves docExample) false).state.publishViewLoaded
      (publishViewKey "ns1" "note") = true :=
  (C2_registry_registration emptyService "ns1" "note" "u1" "w1" "v1"
      (CollabBehavior.resolveFromCache docExample) (FetchOutcome.resolves docExample) false
      (CollabBehavior.resolveFromCache docExample) (FetchOutcome.resolves docExample) false
      CollabBehavior.invokeFetch (FetchOutcome.rejects "boom")).1 docExample rfl

theorem mapHas_publishView (s : AFClientService) (wk v : String) :
    mapHas (publishView s wk v).publishViewInfo v = false := by
  rw [publishView]
  by_cases h : mapHas s.publishViewInfo v = true
  · rw [if_pos h]; exact mapHas_mapDelete_self _ _
  · rw [if_neg h]
    cases hb : mapHas s.publishViewInfo v
    · rfl
    · exact absurd hb h

theorem mapHas_unpublishView (s : AFClientService) (wk v : String) :
    mapHas (unpublishView s wk v).publishViewInfo v = false := by
  rw [unpublishView]
  by_cases h : mapHas s.publishViewInfo v = true
  · rw [if_pos h]; exact mapHas_mapDelete_self _ _
  · rw [if_neg h]
    cases hb : mapHas s.publishViewInfo v
    · rfl
    · exact absurd hb h

theorem getPublishInfo_networkCalled_of_none (s : AFClientService) (v : String)
    (f : FetchOutcome ViewInfo) (h : mapGet s.publishViewInfo v = none) :
    (getPublishInfo s v f).networkCalled = true := by
  unfold getPublishInfo
  rw [h]
  cases f with
  | rejects e => rfl
  | resolves info =>
      by_cases hn : (info.«namespace» == "") = true
      · simp [hn]
      · simp [hn]

/-- Claim C3 is false as stated: in `getPageDoc` the invalidation path
is not guarded by a `hasRecord` check — here the local persistent cache
has no record (`hasRecord = false`), yet the key is removed from the
registry and `deleteView` is still issued. -/
theorem C3_counterexample :
    (getPageDoc loadedPageService (some "u1") "w1" "v1" CollabBehavior.invokeFetch
        (FetchOutcome.rejects "network down") false).deletedView = true ∧
    setHas (getPageDoc loadedPageService (some "u1") "w1" "v1" CollabBehavior.invokeFetch
        (FetchOutcome.rejects "network down") false).state.viewLoaded
      (pageDocKey "u1" "w1" "v1") = false ∧
    (getPageDoc loadedPageService (some "u1") "w1" "v1" CollabBehavior.invokeFetch
        (FetchOutcome.rejects "network down") false).result =
      CallResult.err "network down" := by
  refine ⟨rfl, ?_, rfl⟩
  exact setHas_setDelete_self _ _

/-- Claim C3 (amended): when the network-fetch closure rejects, the
original rejection always propagates to the caller and no secondary
error is raised; in `getPublishView` the purge (registry removal plus
stored-record deletion) happens exactly when `hasViewMetaCache` reports
a record, and with no record nothing is removed; in `getPageDoc`,
however, the purge is unconditional — the registry key is removed and
the stored record deleted regardless of whether a record exists. -/
theorem C3_invalidation_on_failure (s : AFClientService) (ns pn uid wk vid e : String) :
    ((getPublishView s ns pn CollabBehavior.invokeFetch (FetchOutcome.rejects e)
        true).result = CallResult.err e ∧
      (getPublishView s ns pn CollabBehavior.invokeFetch (FetchOutcome.rejects e)
        true).deletedView = true ∧
      setHas (getPublishView s ns pn CollabBehavior.invokeFetch (FetchOutcome.rejects e)
        true).state.publishViewLoaded (publishViewKey ns pn) = false) ∧
    ((getPublishView s ns pn CollabBehavior.invokeFetch (FetchOutcome.rejects e)
        false).result = CallResult.err e ∧
      (getPublishView s ns pn CollabBehavior.invokeFetch (FetchOutcome.rejects e)
        false).deletedView = false ∧
      (getPublishView s ns pn CollabBehavior.invokeFetch (FetchOutcome.rejects e)
        false).state = s) ∧
    (∀ hr : Bool,
      (getPageDoc s (some uid) wk vid CollabBehavior.invokeFetch (FetchOutcome.rejects e)
        hr).result = CallResult.err e ∧
      (getPageDoc s (some uid) wk vid CollabBehavior.invokeFetch (FetchOutcome.rejects e)
        hr).deletedView = true ∧
      setHas (getPageDoc s (some uid) wk vid CollabBehavior.invokeFetch
        (FetchOutcome.rejects e) hr).state.viewLoaded (pageDocKey uid wk vid) = false) := by
  refine ⟨⟨rfl, rfl, ?_⟩, ⟨rfl, rfl, rfl⟩, fun hr => ⟨rfl, rfl, ?_⟩⟩
  · exact setHas_setDelete_self _ _
  · exact setHas_setDelete_self _ _

/-- Claim C4 is false as stated: `updatePublishHomepage` is in the
claimed mutation set, yet it invalidates nothing — a `getPublishInfo`
for the targeted view right after the mutation returns the pre-mutation
cached record without any network call. -/
theorem C4_counterexample :
    (getPublishInfo (updatePublishHomepage cachedService "w1" "v42") "v42"
        (FetchOutcome.resolves infoExample)).result = CallResult.ok recExample ∧
    (getPublishInfo (updatePublishHomepage cachedService "w1" "v42") "v42"
        (FetchOutcome.resolves infoExample)).networkCalled = false ∧
    recExample ≠ shapeViewInfo infoExample := by
  refine ⟨rfl, rfl, by decide⟩

/-- Claim C4 (amended): `publishView`, `unpublishView` and
`updatePublishConfig` remove the targeted view's publish-info entry,
and `updatePublishNamespace` clears all entries, before the network
mutation is issued (the stated state is the one in effect at dispatch
time), so a subsequent `getPublishInfo` for that view must consult the
network; `updatePublishHomepage` and `removePublishHomepage`, however,
perform no invalidation at all and leave the service state unchanged. -/
theorem C4_invalidate_before_mutation (s : AFClientService) (wk v : String) :
    mapHas (publishView s wk v).publishViewInfo v = false ∧
    mapHas (unpublishView s wk v).publishViewInfo v = false ∧
    (updatePublishNamespace s wk).publishViewInfo = [] ∧
    mapHas (updatePublishConfig s wk v).publishViewInfo v = false ∧
    (∀ f, (getPublishInfo (publishView s wk v) v f).networkCalled = true) ∧
    (∀ f, (getPublishInfo (unpublishView s wk v) v f).networkCalled = true) ∧
    (∀ f, (getPublishInfo (updatePublishConfig s wk v) v f).networkCalled = true) ∧
    updatePublishHomepage s wk v = s ∧
    removePublishHomepage s wk = s := by
  refine ⟨mapHas_publishView s wk v, mapHas_unpublishView s wk v, rfl,
    mapHas_mapDelete_self _ _, fun f => ?_, fun f => ?_, fun f => ?_, rfl, rfl⟩
  · exact getPublishInfo_networkCalled_of_none _ _ f
      (mapGet_eq_none_of _ _ (mapHas_publishView s wk v))
  · exact getPublishInfo_networkCalled_of_none _ _ f
      (mapGet_eq_none_of _ _ (mapHas_unpublishView s wk v))
  · exact getPublishInfo_networkCalled_of_none _ _ f
      (mapGet_eq_none_of _ _ (mapHas_mapDelete_self _ _))

theorem publishView_of_not_has (s : AFClientService) (wk v : String)
    (h : mapHas s.publishViewInfo v = false) : publishView s wk v = s := by
  rw [publishView, if_neg (by simp [h])]

/-- Claim C5: `getPublishInfo` on a cache hit returns the in-memory
record without any network call and leaves the state unchanged; on a
cache miss it fetches from the network, rejects with "View not found"
when the response carries no namespace, and otherwise shapes the
response into a publish-info record and stores it in the cache before
returning it. -/
theorem C5_getPublishInfo_behaviour (s : AFClientService) (v : String) (info : ViewInfo)
    (r : PublishInfoRecord) :
    (mapGet s.publishViewInfo v = some r →
      getPublishInfo s v (FetchOutcome.resolves info) =
        { result := CallResult.ok r, state := s, networkCalled := false }) ∧
    (mapGet s.publishViewInfo v = none → info.«namespace» = "" →
      (getPublishInfo s v (FetchOutcome.resolves info)).result =
        CallResult.err "View not found") ∧
    (mapGet s.publishViewInfo v = none → info.«namespace» ≠ "" →
      (getPublishInfo s v (FetchOutcome.resolves info)).result =
        CallResult.ok (shapeViewInfo info) ∧
      mapGet (getPublishInfo s v (FetchOutcome.resolves info)).state.publishViewInfo v =
        some (shapeViewInfo info) ∧
      (getPublishInfo s v (FetchOutcome.resolves info)).networkCalled = true) := by
  refine ⟨fun h => ?_, fun h hn => ?_, fun h hn => ?_⟩
  · unfold getPublishInfo
    rw [h]
  · unfold getPublishInfo
    rw [h]
    simp [hn]
  · have heq : getPublishInfo s v (FetchOutcome.resolves info) =
        { result := CallResult.ok (shapeViewInfo info),
          state := { s with
            publishViewInfo := mapSet s.publishViewInfo v (shapeViewInfo info) },
          networkCalled := true } := by
      unfold getPublishInfo
      rw [h]
      simp [hn]
    rw [heq]
    exact ⟨rfl, mapGet_mapSet_self _ _ _, rfl⟩

/-- Witness for C5 at concrete inputs: a second read of a cached view
returns the stored record without a network call. -/
theorem C5_getPublishInfo_behaviour_witness :
    getPublishInfo cachedService "v42" (FetchOutcome.resolves infoExample) =
      { result := CallResult.ok recExample, state := cachedService,
        networkCalled := false } :=
  (C5_getPublishInfo_behaviour cachedService "v42" infoExample recExample).1 rfl

/-- Claim C6: a nominally successful fetch that resolves to an
empty/absent entity rejects with a domain not-found error rather than
returning the empty value — `getPublishViewMeta` with "View has not
been published yet", `getCurrentUser` with "User not found",
`getPublishRowDocument` with "Document not found" — while a rejecting
fetch propagates its own error unchanged, keeping the two cases
distinguishable. -/
theorem C6_domain_not_found (s : AFClientService) (ns pn e : String)
    (fm : FetchOutcome (Option ViewMeta)) (d : Doc) :
    (getPublishViewMeta s ns pn (CollabBehavior.resolveFromCache none) fm).result =
      CallResult.err "View has not been published yet" ∧
    (getPublishViewMeta s ns pn CollabBehavior.invokeFetch
      (FetchOutcome.resolves none)).result =
      CallResult.err "View has not been published yet" ∧
    (getPublishViewMeta s ns pn CollabBehavior.invokeFetch
      (FetchOutcome.rejects e)).result = CallResult.err e ∧
    (getCurrentUser (FetchOutcome.resolves none)).result =
      CallResult.err "User not found" ∧
    (getCurrentUser (FetchOutcome.rejects e)).result = CallResult.err e ∧
    getPublishRowDocument d false = CallResult.err "Document not found" ∧
    getPublishRowDocument d true = CallResult.ok d :=
  ⟨rfl, rfl, rfl, rfl, rfl, rfl, rfl⟩

/-- Claim C7: publish-info invalidation is idempotent — invalidating a
view twice in a row (through `publishView` or `updatePublishConfig`)
yields the same service state as invalidating once, and invalidating a
view absent from the cache leaves the service unchanged and raises no
error. -/
theorem C7_invalidation_idempotent (s : AFClientService) (wk v : String) :
    publishView (publishView s wk v) wk v = publishView s wk v ∧
    updatePublishConfig (updatePublishConfig s wk v) wk v = updatePublishConfig s wk v ∧
    (mapHas s.publishViewInfo v = false →
      publishView s wk v = s ∧ updatePublishConfig s wk v = s) := by
  refine ⟨?_, ?_, fun h => ⟨?_, ?_⟩⟩
  · exact publishView_of_not_has (publishView s wk v) wk v (mapHas_publishView s wk v)
  · simp only [updatePublishConfig]
    rw [mapDelete_eq_self_of _ _ (mapHas_mapDelete_self s.publishViewInfo v)]
  · exact publishView_of_not_has s wk v h
  · rw [updatePublishConfig, mapDelete_eq_self_of _ _ h]

/-- Witness for C7 at concrete inputs: invalidating a view absent from
a fresh service's cache is a no-op for both mutation paths. -/
theorem C7_invalidation_idempotent_witness :
    publishView emptyService "w1" "v42" = emptyService ∧
    updatePublishConfig emptyService "w1" "v42" = emptyService :=
  (C7_invalidation_idempotent emptyService "w1" "v42").2.2 rfl

/-- Claim C8: with no user identity resolvable from the session token,
`getPageDoc` and `registerDocUpdate` fail fast with "User not found":
the cache collaborator is never consulted (no strategy is requested),
the network-fetch closure is never invoked, no deletion is issued, the
service state is untouched, and no sync binding is constructed. -/
theorem C8_precondition_fail_fast (s : AFClientService) (wk vid : String)
    (cp : CollabBehavior Doc) (fp : FetchOutcome Doc) (hr : Bool) :
    getPageDoc s none wk vid cp fp hr =
      { result := CallResult.err "User not found", state := s, strategy := none,
        fetchInvoked := false, deletedView := false } ∧
    registerDocUpdate none =
      { result := CallResult.err "User not found", syncConstructed := false } :=
  ⟨rfl, rfl⟩

theorem append_sep_inj : ∀ (l1 l2 t1 t2 : List Char),
    '_' ∉ l1 → '_' ∉ l2 → l1 ++ '_' :: t1 = l2 ++ '_' :: t2 → l1 = l2 ∧ t1 = t2
  | [], [], _, _, _, _, h => by simpa using h
  | [], c :: l2', _, _, _, h2, h => by
      simp only [List.nil_append, List.cons_append, List.cons.injEq] at h
      obtain ⟨hc, -⟩ := h
      subst hc
      exact absurd (List.mem_cons_self _ _) h2
  | a :: l1', [], _, _, h1, _, h => by
      simp only [List.cons_append, List.nil_append, List.cons.injEq] at h
      obtain ⟨ha, -⟩ := h
      subst ha
      exact absurd (List.mem_cons_self _ _) h1
  | a :: l1', c :: l2', t1, t2, h1, h2, h => by
      simp only [List.cons_append, List.cons.injEq] at h
      obtain ⟨hac, hrest⟩ := h
      have h1' : '_' ∉ l1' := fun hm => h1 (List.mem_cons_of_mem _ hm)
      have h2' : '_' ∉ l2' := fun hm => h2 (List.mem_cons_of_mem _ hm)
      obtain ⟨he, ht⟩ := append_sep_inj l1' l2' t1 t2 h1' h2' hrest
      exact ⟨by rw [hac, he], ht⟩

theorem string_sep_inj (s1 t1 s2 t2 : String)
    (h1 : '_' ∉ s1.data) (h2 : '_' ∉ s2.data)
    (h : s1 ++ "_" ++ t1 = s2 ++ "_" ++ t2) : s1 = s2 ∧ t1 = t2 := by
  have hd : s1.data ++ '_' :: t1.data = s2.data ++ '_' :: t2.data := by
    have hd0 := congrArg String.data h
    simpa [String.data_append, List.append_assoc] using hd0
  obtain ⟨he, ht⟩ := append_sep_inj _ _ _ _ h1 h2 hd
  exact ⟨String.ext he, String.ext ht⟩

theorem pageDocKey_eq (u w v : String) :
    pageDocKey u w v = u ++ "_" ++ (w ++ "_" ++ v) := by
  simp [pageDocKey, String.append_assoc]

/-- Claim C9 is false as stated: the key construction is not injective —
the distinct parameter pairs ("a_b","c") and ("a","b_c") build the same
publish key, and the distinct triples ("a_b","c","d") and ("a","b","c_d")
build the same page-doc key, because the underscore separator also
occurs inside the components. -/
theorem C9_counterexample :
    publishViewKey "a_b" "c" = publishViewKey "a" "b_c" ∧
    ¬("a_b" = "a" ∧ "c" = "b_c") ∧
    pageDocKey "a_b" "c" "d" = pageDocKey "a" "b" "c_d" ∧
    ¬("a_b" = "a" ∧ "c" = "b" ∧ "d" = "c_d") := by
  exact ⟨rfl, by decide, rfl, by decide⟩

/-- Claim C9 (amended): key construction is a deterministic function of
the identifying parameters — equal pairs / triples always yield equal
keys; injectivity, however, only holds away from the separator: when
the namespaces contain no underscore, equal publish keys force equal
(namespace, publishName) pairs, and when the user and workspace
components contain no underscore, equal page-doc keys force equal
(userId, workspaceId, viewId) triples.  Components containing
underscores can collide (see the counterexample). -/
theorem C9_key_determinism (ns1 pn1 ns2 pn2 u1 w1 v1 u2 w2 v2 : String) :
    (ns1 = ns2 → pn1 = pn2 → publishViewKey ns1 pn1 = publishViewKey ns2 pn2) ∧
    (u1 = u2 → w1 = w2 → v1 = v2 → pageDocKey u1 w1 v1 = pageDocKey u2 w2 v2) ∧
    ('_' ∉ ns1.data → '_' ∉ ns2.data →
      publishViewKey ns1 pn1 = publishViewKey ns2 pn2 → ns1 = ns2 ∧ pn1 = pn2) ∧
    ('_' ∉ u1.data → '_' ∉ u2.data → '_' ∉ w1.data → '_' ∉ w2.data →
      pageDocKey u1 w1 v1 = pageDocKey u2 w2 v2 → u1 = u2 ∧ w1 = w2 ∧ v1 = v2) := by
  refine ⟨fun h1 h2 => by rw [h1, h2], fun h1 h2 h3 => by rw [h1, h2, h3],
    fun h1 h2 h => string_sep_inj _ _ _ _ h1 h2 h,
    fun hu1 hu2 hw1 hw2 h => ?_⟩
  rw [pageDocKey_eq u1 w1 v1, pageDocKey_eq u2 w2 v2] at h
  obtain ⟨he1, he2⟩ := string_sep_inj _ _ _ _ hu1 hu2 h
  obtain ⟨he3, he4⟩ := string_sep_inj _ _ _ _ hw1 hw2 he2
  exact ⟨he1, he3, he4⟩

/-- Witness for C9 (amended) at concrete inputs: equal underscore-free
parameters are recovered from an equal publish key. -/
theorem C9_key_determinism_witness : ("ns" : String) = "ns" ∧ ("note" : String) = "note" :=
  (C9_key_determinism "ns" "note" "ns" "note" "u" "w" "v" "u" "w" "v").2.2.1
    (by decide) (by decide) rfl

/-- Claim C10: `publishView`, `unpublishView` and `updatePublishConfig`
remove the targeted view's publish-info cache entry even when the
network mutation rejects — the invalidation happens unconditionally
before delegating and is never rolled back, so the state after a failed
mutation equals the state after a successful one and holds no record
for the view, while the rejection still propagates to the caller. -/
theorem C10_invalidate_survives_failure (s : AFClientService) (wk v e : String) :
    (publishViewRun s wk v (CallResult.err e)).1 = CallResult.err e ∧
    mapHas (publishViewRun s wk v (CallResult.err e)).2.publishViewInfo v = false ∧
    (publishViewRun s wk v (CallResult.err e)).2 =
      (publishViewRun s wk v (CallResult.ok ())).2 ∧
    (unpublishViewRun s wk v (CallResult.err e)).1 = CallResult.err e ∧
    mapHas (unpublishViewRun s wk v (CallResult.err e)).2.publishViewInfo v = false ∧
    (unpublishViewRun s wk v (CallResult.err e)).2 =
      (unpublishViewRun s wk v (CallResult.ok ())).2 ∧
    (updatePublishConfigRun s wk v (CallResult.err e)).1 = CallResult.err e ∧
    mapHas (updatePublishConfigRun s wk v (CallResult.err e)).2.publishViewInfo v = false ∧
    (updatePublishConfigRun s wk v (CallResult.err e)).2 =
      (updatePublishConfigRun s wk v (CallResult.ok ())).2 :=
  ⟨rfl, mapHas_publishView s wk v, rfl, rfl, mapHas_unpublishView s wk v, rfl, rfl,
    mapHas_mapDelete_self _ _, rfl⟩

end AppFlowyWeb
